import Mathlib

/-!
Shallow embedding of `scripts/cost-calculator.py` (class `GCPCostCalculator`).

Python floats are modelled by exact rationals; decimal literals of the
source become the corresponding exact rationals.  Raised exceptions
(`ValueError` for an unknown scenario, `KeyError` for an unknown pricing
key) become an `Except CalcError` result.  The insertion-ordered `costs`
dict becomes an ordered association list.
-/

namespace CostCalc

/-- Errors of the engine: `ValueError(f"Unknown scenario: {scenario}")`
and a `KeyError` on a pricing-table lookup, each carrying the bad key. -/
inductive CalcError where
  | unknownScenario (name : String)
  | unknownSku (sku : String)
deriving DecidableEq, Repr

/-- `self.pricing['gke']` from `GCPCostCalculator.__init__`. -/
def gkePrice (machine_type : String) : Option ℚ :=
  if machine_type = "e2-small" then some 24.27
  else if machine_type = "e2-medium" then some 48.55
  else if machine_type = "e2-standard-2" then some 97.11
  else if machine_type = "e2-standard-4" then some 194.22
  else none

/-- `self.pricing['cloud_sql']`. -/
def cloudSqlPrice (machine_type : String) : Option ℚ :=
  if machine_type = "db-f1-micro" then some 15.00
  else if machine_type = "db-g1-small" then some 50.00
  else if machine_type = "db-n1-standard-1" then some 95.00
  else if machine_type = "db-n1-standard-2" then some 190.00
  else if machine_type = "db-n1-standard-4" then some 380.00
  else none

/-- `self.pricing['cloud_run']['cpu_time']`: per vCPU-second. -/
def cloudRunCpuTime : ℚ := 0.000024

/-- `self.pricing['cloud_run']['memory_time']`: per GB-second. -/
def cloudRunMemoryTime : ℚ := 0.0000025

/-- `self.pricing['cloud_run']['requests']`: per million requests. -/
def cloudRunRequestsPrice : ℚ := 0.40

/-- `self.pricing['cloud_run']['min_instances']`: per always-allocated instance. -/
def cloudRunMinInstancesPrice : ℚ := 8.76

/-- `self.pricing['storage']['persistent_ssd']`. -/
def persistentSsdPrice : ℚ := 0.17

/-- `self.pricing['storage']['cloud_sql_ssd']`. -/
def cloudSqlSsdPrice : ℚ := 0.17

/-- `self.pricing['network']['load_balancer']`. -/
def loadBalancerPrice : ℚ := 18.00

/-- `self.pricing['network']['egress_internet']`. -/
def egressInternetPrice : ℚ := 0.12

/-- `self.pricing['operations']['monitoring_basic']`. -/
def monitoringBasicPrice : ℚ := 5.00

/-- `self.pricing['operations']['monitoring_premium']`. -/
def monitoringPremiumPrice : ℚ := 25.00

/-- `calculate_gke_cost`: `pricing['gke'][machine_type] * node_count`,
multiplied by `0.2` when preemptible. -/
def calculate_gke_cost (machine_type : String) (node_count : ℕ)
    (preemptible : Bool) : Except CalcError ℚ :=
  match gkePrice machine_type with
  | none => .error (.unknownSku machine_type)
  | some p =>
      let base_cost := p * (node_count : ℚ)
      .ok (if preemptible then base_cost * 0.2 else base_cost)

/-- `calculate_cloud_sql_cost`: compute base (doubled for HA) plus storage
plus backup (8% of the SSD rate). -/
def calculate_cloud_sql_cost (machine_type : String) (storage_gb : ℕ)
    (ha : Bool) (backup_storage : ℕ) : Except CalcError ℚ :=
  match cloudSqlPrice machine_type with
  | none => .error (.unknownSku machine_type)
  | some p =>
      let compute_cost := if ha then p * 2 else p
      let storage_cost := (storage_gb : ℚ) * cloudSqlSsdPrice
      let backup_cost := (backup_storage : ℚ) * cloudSqlSsdPrice * 0.08
      .ok (compute_cost + storage_cost + backup_cost)

/-- `calculate_cloud_run_cost`: request + cpu + memory + min-instance terms.
Python true division `/` is exact rational division here. -/
def calculate_cloud_run_cost (requests_per_month : ℕ) (avg_cpu_time_ms : ℕ)
    (avg_memory_mb : ℕ) (min_instances : ℕ) : ℚ :=
  let request_cost := ((requests_per_month : ℚ) / 1000000) * cloudRunRequestsPrice
  let cpu_seconds := ((requests_per_month : ℚ) * (avg_cpu_time_ms : ℚ)) / 1000
  let cpu_vcpu_seconds := cpu_seconds * 1
  let cpu_cost := cpu_vcpu_seconds * cloudRunCpuTime
  let memory_gb_seconds := (cpu_seconds * (avg_memory_mb : ℚ)) / 1024
  let memory_cost := memory_gb_seconds * cloudRunMemoryTime
  let min_instance_cost := (min_instances : ℚ) * cloudRunMinInstancesPrice
  request_cost + cpu_cost + memory_cost + min_instance_cost

/-- The `usage` sub-dict of a scenario configuration. -/
structure Usage where
  requests_per_month : ℕ
  avg_cpu_time_ms : ℕ
  avg_memory_mb : ℕ
  storage_gb : ℕ
  egress_gb : ℕ
deriving DecidableEq, Repr

/-- One entry of the `scenarios` dict inside `calculate_scenario_cost`:
the description, usage figures and component selections. -/
structure ScenarioConfig where
  description : String
  usage : Usage
  gke_machine : String
  gke_node_count : ℕ
  gke_preemptible : Bool
  sql_machine : String
  sql_storage : ℕ
  sql_ha : Bool
  sql_backup : ℕ
  monitoring : String
deriving DecidableEq, Repr

/-- The `scenarios` dict lookup of `calculate_scenario_cost`. -/
def scenarios (scenario : String) : Option ScenarioConfig :=
  if scenario = "demo" then some
    { description := "Demo environment for demonstrations"
      usage := { requests_per_month := 10000, avg_cpu_time_ms := 200,
                 avg_memory_mb := 256, storage_gb := 50, egress_gb := 10 }
      gke_machine := "e2-small", gke_node_count := 1, gke_preemptible := true
      sql_machine := "db-f1-micro", sql_storage := 20, sql_ha := false,
      sql_backup := 5, monitoring := "basic" }
  else if scenario = "staging" then some
    { description := "Staging environment for testing"
      usage := { requests_per_month := 50000, avg_cpu_time_ms := 300,
                 avg_memory_mb := 512, storage_gb := 100, egress_gb := 25 }
      gke_machine := "e2-medium", gke_node_count := 2, gke_preemptible := false
      sql_machine := "db-n1-standard-1", sql_storage := 50, sql_ha := false,
      sql_backup := 15, monitoring := "basic" }
  else if scenario = "production" then some
    { description := "Production environment"
      usage := { requests_per_month := 200000, avg_cpu_time_ms := 500,
                 avg_memory_mb := 1024, storage_gb := 200, egress_gb := 100 }
      gke_machine := "e2-standard-2", gke_node_count := 3, gke_preemptible := false
      sql_machine := "db-n1-standard-2", sql_storage := 100, sql_ha := true,
      sql_backup := 50, monitoring := "premium" }
  else if scenario = "enterprise" then some
    { description := "Enterprise multi-region deployment"
      usage := { requests_per_month := 1000000, avg_cpu_time_ms := 750,
                 avg_memory_mb := 2048, storage_gb := 500, egress_gb := 500 }
      gke_machine := "e2-standard-4", gke_node_count := 6, gke_preemptible := false
      sql_machine := "db-n1-standard-4", sql_storage := 200, sql_ha := true,
      sql_backup := 100, monitoring := "premium" }
  else none

/-- The dict returned by `calculate_scenario_cost`. -/
structure ScenarioResult where
  scenario : String
  description : String
  monthly_cost : ℚ
  annual_cost : ℚ
  cost_breakdown : List (String × ℚ)
  usage_stats : Usage
deriving DecidableEq, Repr

/-- `calculate_scenario_cost`: scenario lookup, per-component costs built
into the insertion-ordered `costs` dict, total as the sum of its values. -/
def calculate_scenario_cost (scenario : String) : Except CalcError ScenarioResult :=
  match scenarios scenario with
  | none => .error (.unknownScenario scenario)
  | some config =>
      match calculate_gke_cost config.gke_machine config.gke_node_count
          config.gke_preemptible with
      | .error e => .error e
      | .ok gke_cost =>
          match calculate_cloud_sql_cost config.sql_machine config.sql_storage
              config.sql_ha config.sql_backup with
          | .error e => .error e
          | .ok sql_cost =>
              let usage := config.usage
              let web_cost := calculate_cloud_run_cost usage.requests_per_month
                usage.avg_cpu_time_ms usage.avg_memory_mb
                (if scenario = "production" then 1 else 0)
              let worker_cost := calculate_cloud_run_cost
                (usage.requests_per_month / 10) (usage.avg_cpu_time_ms * 2)
                (usage.avg_memory_mb * 2)
                (if scenario = "production" ∨ scenario = "enterprise" then 1 else 0)
              let storage_cost := (usage.storage_gb : ℚ) * persistentSsdPrice
              let egress_cost := (usage.egress_gb : ℚ) * egressInternetPrice
              let monitoring_cost :=
                if config.monitoring = "basic" then monitoringBasicPrice
                else monitoringPremiumPrice
              let costs : List (String × ℚ) :=
                [("gke", gke_cost), ("cloud_sql", sql_cost),
                 ("cloud_run_web", web_cost), ("cloud_run_worker", worker_cost),
                 ("storage", storage_cost), ("load_balancer", loadBalancerPrice),
                 ("egress", egress_cost), ("monitoring", monitoring_cost)] ++
                (if scenario = "enterprise"
                 then [("security", 100), ("support", 200)] else [])
              let total_cost := (costs.map Prod.snd).sum
              .ok { scenario := scenario, description := config.description,
                    monthly_cost := total_cost, annual_cost := total_cost * 12,
                    cost_breakdown := costs, usage_stats := usage }

/-- Python dict assignment `results[k] = v`: replaces the value in place
when the key is present, otherwise appends at the end. -/
def dictInsert (m : List (String × ScenarioResult)) (k : String)
    (v : ScenarioResult) : List (String × ScenarioResult) :=
  if k ∈ m.map Prod.fst
  then m.map (fun p => if p.1 = k then (k, v) else p)
  else m ++ [(k, v)]

/-- The loop body of `compare_scenarios`, with the `results` dict as
accumulator; a raised error aborts the whole loop. -/
def compareAux (acc : List (String × ScenarioResult)) :
    List String → Except CalcError (List (String × ScenarioResult))
  | [] => .ok acc
  | s :: rest =>
      match calculate_scenario_cost s with
      | .error e => .error e
      | .ok r => compareAux (dictInsert acc s r) rest

/-- `compare_scenarios`: builds the name-to-result dict in input order. -/
def compare_scenarios (names : List String) :
    Except CalcError (List (String × ScenarioResult)) :=
  compareAux [] names

/-- Placeholder used only to extract a concrete result from an `ok` value. -/
def defaultScenarioResult : ScenarioResult :=
  { scenario := "", description := "", monthly_cost := 0, annual_cost := 0,
    cost_breakdown := [], usage_stats := ⟨0, 0, 0, 0, 0⟩ }

/-- The concrete result for the demo scenario. -/
def demoResult : ScenarioResult :=
  ((calculate_scenario_cost "demo").toOption).getD defaultScenarioResult

/-- The concrete result for the staging scenario. -/
def stagingResult : ScenarioResult :=
  ((calculate_scenario_cost "staging").toOption).getD defaultScenarioResult

/-- The concrete result for the production scenario. -/
def productionResult : ScenarioResult :=
  ((calculate_scenario_cost "production").toOption).getD defaultScenarioResult

/-- The concrete result for the enterprise scenario. -/
def enterpriseResult : ScenarioResult :=
  ((calculate_scenario_cost "enterprise").toOption).getD defaultScenarioResult

/-- The concrete comparison dict for the demo and production scenarios. -/
def demoProductionComparison : List (String × ScenarioResult) :=
  [("demo", demoResult), ("production", productionResult)]

/-- C1: for every scenario name on which `calculate_scenario_cost` succeeds,
the monthly total of the result equals the sum of its breakdown entries. -/
theorem monthly_cost_eq_breakdown_sum (s : String) (r : ScenarioResult)
    (h : calculate_scenario_cost s = .ok r) :
    r.monthly_cost = (r.cost_breakdown.map Prod.snd).sum := by
  unfold calculate_scenario_cost at h
  split at h
  · exact absurd h (by simp)
  · split at h
    · exact absurd h (by simp)
    · split at h
      · exact absurd h (by simp)
      · cases h
        rfl

/-- Witness for C1 at the demo scenario. -/
theorem monthly_cost_eq_breakdown_sum_witness :
    calculate_scenario_cost "demo" = .ok demoResult ∧
    demoResult.monthly_cost = (demoResult.cost_breakdown.map Prod.snd).sum :=
  ⟨rfl, monthly_cost_eq_breakdown_sum "demo" demoResult rfl⟩

/-- C2: for every scenario name on which `calculate_scenario_cost` succeeds,
the annual cost of the result is exactly twelve times its monthly cost. -/
theorem annual_cost_eq_monthly_mul_twelve (s : String) (r : ScenarioResult)
    (h : calculate_scenario_cost s = .ok r) :
    r.annual_cost = r.monthly_cost * 12 := by
  unfold calculate_scenario_cost at h
  split at h
  · exact absurd h (by simp)
  · split at h
    · exact absurd h (by simp)
    · split at h
      · exact absurd h (by simp)
      · cases h
        rfl

/-- Witness for C2 at the production scenario. -/
theorem annual_cost_eq_monthly_mul_twelve_witness :
    calculate_scenario_cost "production" = .ok productionResult ∧
    productionResult.annual_cost = productionResult.monthly_cost * 12 :=
  ⟨rfl, annual_cost_eq_monthly_mul_twelve "production" productionResult rfl⟩

/-- C3: for every input outside the four recognized names,
`calculate_scenario_cost` fails with the unknown-scenario error carrying the
invalid identifier, returning no result at all. -/
theorem unknown_scenario_fails (s : String)
    (h : s ∉ (["demo", "staging", "production", "enterprise"] : List String)) :
    calculate_scenario_cost s = .error (.unknownScenario s) := by
  simp only [List.mem_cons, List.not_mem_nil, or_false, not_or] at h
  obtain ⟨h1, h2, h3, h4⟩ := h
  unfold calculate_scenario_cost scenarios
  rw [if_neg h1, if_neg h2, if_neg h3, if_neg h4]

/-- Witness for C3 at the input string used by the spec. -/
theorem unknown_scenario_fails_witness :
    "unknown" ∉ (["demo", "staging", "production", "enterprise"] : List String) ∧
    calculate_scenario_cost "unknown" = .error (.unknownScenario "unknown") :=
  ⟨by decide, unknown_scenario_fails "unknown" (by decide)⟩

/-- C4: with zero requests, the serverless cost is exactly the number of
minimum instances times the per-always-on-instance price 8.76. -/
theorem zero_requests_cost_is_min_instance_term
    (avg_cpu_time_ms avg_memory_mb min_instances : ℕ) :
    calculate_cloud_run_cost 0 avg_cpu_time_ms avg_memory_mb min_instances
      = (min_instances : ℚ) * 8.76 := by
  unfold calculate_cloud_run_cost cloudRunRequestsPrice cloudRunCpuTime
    cloudRunMemoryTime cloudRunMinInstancesPrice
  push_cast
  ring

/-- C5-counterexample: with zero requests but one minimum instance the
serverless cost is not zero. -/
theorem zero_requests_total_nonzero :
    calculate_cloud_run_cost 0 0 0 1 ≠ 0 := by
  unfold calculate_cloud_run_cost cloudRunRequestsPrice cloudRunCpuTime
    cloudRunMemoryTime cloudRunMinInstancesPrice
  norm_num

/-- C5-amended: with zero requests and zero minimum instances the serverless
cost is zero, regardless of the other parameters. -/
theorem zero_requests_zero_min_instances_total_zero
    (avg_cpu_time_ms avg_memory_mb : ℕ) :
    calculate_cloud_run_cost 0 avg_cpu_time_ms avg_memory_mb 0 = 0 := by
  unfold calculate_cloud_run_cost cloudRunRequestsPrice cloudRunCpuTime
    cloudRunMemoryTime cloudRunMinInstancesPrice
  push_cast
  ring

/-- C6: for a known machine type with unit price p, the non-preemptible node
cost is p times the node count and the preemptible node cost is exactly 0.2
times that. -/
theorem gke_preemptible_discount (machine_type : String) (node_count : ℕ)
    (p : ℚ) (h : gkePrice machine_type = some p) :
    calculate_gke_cost machine_type node_count false = .ok (p * (node_count : ℚ)) ∧
    calculate_gke_cost machine_type node_count true
      = .ok (p * (node_count : ℚ) * 0.2) := by
  unfold calculate_gke_cost
  rw [h]
  exact ⟨rfl, rfl⟩

/-- Witness for C6 at machine type e2-small with three nodes. -/
theorem gke_preemptible_discount_witness :
    gkePrice "e2-small" = some 24.27 ∧
    (calculate_gke_cost "e2-small" 3 false = .ok (24.27 * ((3 : ℕ) : ℚ)) ∧
     calculate_gke_cost "e2-small" 3 true = .ok (24.27 * ((3 : ℕ) : ℚ) * 0.2)) :=
  ⟨rfl, gke_preemptible_discount "e2-small" 3 24.27 rfl⟩

/-- C7: for a known database machine type with base price p, the non-HA cost
is base plus storage plus backup, and the HA cost is the non-HA result with
exactly one extra base charge p added; storage and backup terms unchanged. -/
theorem sql_ha_adds_one_base_charge (machine_type : String)
    (storage_gb backup_storage : ℕ) (p : ℚ)
    (h : cloudSqlPrice machine_type = some p) :
    calculate_cloud_sql_cost machine_type storage_gb false backup_storage
      = .ok (p + (storage_gb : ℚ) * cloudSqlSsdPrice
             + (backup_storage : ℚ) * cloudSqlSsdPrice * 0.08) ∧
    calculate_cloud_sql_cost machine_type storage_gb true backup_storage
      = (calculate_cloud_sql_cost machine_type storage_gb false backup_storage).map
          (fun q => q + p) := by
  unfold calculate_cloud_sql_cost
  rw [h]
  refine ⟨rfl, ?_⟩
  simp only [Except.map]
  congr 1
  simp only [Bool.false_eq_true, if_true, if_false]
  ring

/-- Witness for C7 at machine type db-g1-small. -/
theorem sql_ha_adds_one_base_charge_witness :
    cloudSqlPrice "db-g1-small" = some 50.00 ∧
    (calculate_cloud_sql_cost "db-g1-small" 10 false 4
       = .ok (50.00 + ((10 : ℕ) : ℚ) * cloudSqlSsdPrice
              + ((4 : ℕ) : ℚ) * cloudSqlSsdPrice * 0.08) ∧
     calculate_cloud_sql_cost "db-g1-small" 10 true 4
       = (calculate_cloud_sql_cost "db-g1-small" 10 false 4).map
           (fun q => q + 50.00)) :=
  ⟨rfl, sql_ha_adds_one_base_charge "db-g1-small" 10 4 50.00 rfl⟩

/-- C8: in the demo breakdown the gke line item is exactly 4.854 and the
cloud_sql line item is exactly 18.468, and these values equal the exact
arithmetic given by the spec. -/
theorem demo_gke_and_sql_line_items :
    calculate_scenario_cost "demo" = .ok demoResult ∧
    demoResult.cost_breakdown.lookup "gke" = some 4.854 ∧
    demoResult.cost_breakdown.lookup "cloud_sql" = some 18.468 ∧
    (4.854 : ℚ) = 24.27 * 1 * 0.2 ∧
    (18.468 : ℚ) = 15.00 + 20 * 0.17 + 5 * 0.17 * 0.08 := by
  refine ⟨rfl, ?_, ?_, by norm_num, by norm_num⟩ <;>
  · norm_num [demoResult, defaultScenarioResult, calculate_scenario_cost,
      scenarios, calculate_gke_cost, calculate_cloud_sql_cost,
      calculate_cloud_run_cost, gkePrice, cloudSqlPrice, cloudRunCpuTime,
      cloudRunMemoryTime, cloudRunRequestsPrice, cloudRunMinInstancesPrice,
      persistentSsdPrice, cloudSqlSsdPrice, loadBalancerPrice,
      egressInternetPrice, monitoringBasicPrice, monitoringPremiumPrice,
      Except.toOption, List.lookup]
    try rfl

/-- Loop invariant of `compareAux`: starting from an accumulator with
duplicate-free keys, the loop extends the key list by the not-yet-present
names in first-occurrence order, keeps the keys duplicate-free, ends with
every processed name among the keys, and every entry not inherited from the
accumulator carries the value computed by `calculate_scenario_cost`. -/
theorem compareAux_spec (names : List String) :
    ∀ (acc m : List (String × ScenarioResult)),
    (acc.map Prod.fst).Nodup →
    compareAux acc names = .ok m →
    (∃ l, m.map Prod.fst = acc.map Prod.fst ++ l ∧ List.Sublist l names ∧
       ∀ k ∈ l, k ∉ acc.map Prod.fst) ∧
    (∀ k ∈ names, k ∈ m.map Prod.fst) ∧
    (m.map Prod.fst).Nodup ∧
    (∀ p ∈ m, p ∈ acc ∨ calculate_scenario_cost p.1 = .ok p.2) := by
  induction names with
  | nil =>
      intro acc m hnd h
      simp only [compareAux] at h
      cases h
      exact ⟨⟨[], by simp, List.nil_sublist [], by simp⟩,
        by simp, hnd, fun p hp => Or.inl hp⟩
  | cons s rest ih =>
      intro acc m hnd h
      rw [compareAux] at h
      split at h
      · exact absurd h (by simp)
      · rename_i r hcs
        by_cases hs : s ∈ acc.map Prod.fst
        · have hkeys : (dictInsert acc s r).map Prod.fst = acc.map Prod.fst := by
            unfold dictInsert
            rw [if_pos hs, List.map_map]
            apply List.map_congr_left
            intro q _
            by_cases hq1 : q.1 = s
            · simp [Function.comp, hq1]
            · simp [Function.comp, hq1]
          have hentry : ∀ p ∈ dictInsert acc s r,
              p ∈ acc ∨ p = (s, r) := by
            intro p hp
            unfold dictInsert at hp
            rw [if_pos hs] at hp
            rcases List.mem_map.mp hp with ⟨q, hq, rfl⟩
            split
            · exact Or.inr rfl
            · exact Or.inl hq
          have hnd' : ((dictInsert acc s r).map Prod.fst).Nodup := by
            rw [hkeys]
            exact hnd
          obtain ⟨⟨l, hl1, hl2, hl3⟩, h2, h3, h4⟩ :=
            ih (dictInsert acc s r) m hnd' h
          rw [hkeys] at hl1 hl3
          refine ⟨⟨l, hl1, hl2.cons s, hl3⟩, ?_, h3, ?_⟩
          · intro k hk
            rcases List.mem_cons.mp hk with hk | hk
            · rw [hk, hl1]
              exact List.mem_append_left l hs
            · exact h2 k hk
          · intro p hp
            rcases h4 p hp with hpmem | hok
            · rcases hentry p hpmem with hpa | hpr
              · exact Or.inl hpa
              · subst hpr
                exact Or.inr hcs
            · exact Or.inr hok
        · have hins : dictInsert acc s r = acc ++ [(s, r)] := by
            unfold dictInsert
            rw [if_neg hs]
          rw [hins] at h
          have hkeys : (acc ++ [(s, r)]).map Prod.fst
              = acc.map Prod.fst ++ [s] := by simp
          have hnd' : ((acc ++ [(s, r)]).map Prod.fst).Nodup := by
            rw [hkeys]
            refine List.Nodup.append hnd (List.nodup_singleton s) ?_
            intro a ha hb
            have has : a = s := by simpa using hb
            exact hs (has ▸ ha)
          obtain ⟨⟨l, hl1, hl2, hl3⟩, h2, h3, h4⟩ :=
            ih (acc ++ [(s, r)]) m hnd' h
          rw [hkeys] at hl1 hl3
          refine ⟨⟨s :: l, ?_, hl2.cons₂ s, ?_⟩, ?_, h3, ?_⟩
          · rw [hl1]
            simp
          · intro k hk
            rcases List.mem_cons.mp hk with hk | hk
            · exact hk ▸ hs
            · intro hkacc
              exact hl3 k hk (List.mem_append_left [s] hkacc)
          · intro k hk
            rcases List.mem_cons.mp hk with hk | hk
            · rw [hk, hl1]
              simp
            · exact h2 k hk
          · intro p hp
            rcases h4 p hp with hpmem | hok
            · rcases List.mem_append.mp hpmem with hpa | hpr
              · exact Or.inl hpa
              · have hpeq : p = (s, r) := by simpa using hpr
                subst hpeq
                exact Or.inr hcs
            · exact Or.inr hok

/-- C9: on success, the keys of the `compare_scenarios` dict are exactly the
names of the input list (as a set), appear in the input list's order (a
duplicate-free sublist of it, first occurrences, as Python dict insertion
gives), and each entry's value equals the result of an independent
`calculate_scenario_cost` call for its key. -/
theorem compare_scenarios_spec (names : List String)
    (m : List (String × ScenarioResult))
    (h : compare_scenarios names = .ok m) :
    (∀ k, k ∈ m.map Prod.fst ↔ k ∈ names) ∧
    List.Sublist (m.map Prod.fst) names ∧
    (m.map Prod.fst).Nodup ∧
    m.map (fun p => calculate_scenario_cost p.1)
      = m.map (fun p => Except.ok p.2) := by
  obtain ⟨⟨l, hl1, hl2, _⟩, h2, h3, h4⟩ :=
    compareAux_spec names [] m (by simp) h
  have hkeys : m.map Prod.fst = l := by simpa using hl1
  refine ⟨?_, ?_, h3, ?_⟩
  · intro k
    refine ⟨fun hk => ?_, h2 k⟩
    rw [hkeys] at hk
    exact hl2.subset hk
  · rw [hkeys]
    exact hl2
  · apply List.map_congr_left
    intro p hp
    rcases h4 p hp with hmem | hok
    · exact absurd hmem (List.not_mem_nil p)
    · exact hok

/-- Witness for C9 at the demo and production pair. -/
theorem compare_scenarios_spec_witness :
    compare_scenarios ["demo", "production"] = .ok demoProductionComparison ∧
    ((∀ k, k ∈ demoProductionComparison.map Prod.fst
        ↔ k ∈ (["demo", "production"] : List String)) ∧
     List.Sublist (demoProductionComparison.map Prod.fst)
       ["demo", "production"] ∧
     (demoProductionComparison.map Prod.fst).Nodup ∧
     demoProductionComparison.map (fun p => calculate_scenario_cost p.1)
       = demoProductionComparison.map (fun p => Except.ok p.2)) := by
  have hc : compare_scenarios ["demo", "production"]
      = .ok demoProductionComparison := rfl
  exact ⟨hc,
    compare_scenarios_spec ["demo", "production"] demoProductionComparison hc⟩

/-- C10: each of the four recognized scenario names evaluates to a concrete
ok result, so no pricing-table lookup made on their behalf can fail. -/
theorem four_scenarios_always_succeed :
    calculate_scenario_cost "demo" = .ok demoResult ∧
    calculate_scenario_cost "staging" = .ok stagingResult ∧
    calculate_scenario_cost "production" = .ok productionResult ∧
    calculate_scenario_cost "enterprise" = .ok enterpriseResult :=
  ⟨rfl, rfl, rfl, rfl⟩

end CostCalc
